import Mathlib

/-!
Verification of the embeddable chat-widget runtime of this repository.

The decisive fact about `src/frontend/public/widget.js`: line 480 writes
the replacement argument of `.replace(/\*\*(.*?)\*\*/g, …)` as a
single-quoted string literal that itself contains `'#8B4513'`.  The
literal therefore closes just before `#8B4513`, leaving `#8B4513` as a
bare token, and `#` can begin no JavaScript token at that position (a
`#` starts only a private identifier — `#` followed by an identifier
start — and only inside a class body; `8` is no identifier start).  A
classic script with a lexical error is rejected as a unit: nothing in
`widget.js` is ever evaluated, `window.AIChatbot` is never defined, and
loading the file surfaces an uncaught SyntaxError in the host page.
This failure is formalised below (`ChatWidget.line480Tokenizes`) together
with a model of the host page after such a load (`ChatWidget.Page`).

The embedded code that does run:
* the widget variant appended to `src/frontend/src/stores/authStore.ts`
  (its own `AIChatbot.init`, `sendMessage`, the 1000ms `setInterval`
  geometry loop and `enforcePosition`), modelled in `ChatWidget.HC`;
* the tenant-by-domain variant `src/unnamed/part_003` (`detectTenant`,
  `sendMessage`, `initWidget`), modelled in `ChatWidget.Floors`.  Its
  `initWidget` is async and sets the `isInitialized` guard only after
  awaiting the tenant lookup, so the model keeps the pre-await and
  post-await halves as separate steps (`initStart` / `initFinish`).

Templates and helpers of `widget.js` are retained as source-text objects
only (they are never executed; see the lexical-error theorems) where a
claim is about the text of the program.  JavaScript string helpers
(`trim`, `replace`) are re-implemented structurally so that every
definition evaluates inside the kernel.
-/

namespace ChatWidget

/-- JavaScript `String.prototype.trim` as used on the chat input
(`input.value.trim()`): strips leading and trailing whitespace.  The common
whitespace characters are modelled. -/
def wsChar (c : Char) : Bool :=
  c == ' ' || c == '\n' || c == '\t' || c == '\r'

/-- `trim` of the host language, on the underlying character list. -/
def jsTrim (s : String) : String :=
  ⟨((s.data.dropWhile wsChar).reverse.dropWhile wsChar).reverse⟩

/-- One step list of `String.prototype.replace(pat, rep)` with a global flag
and a plain-text pattern: replace every occurrence of `pat` by `rep`,
scanning left to right.  `fuel` bounds recursion; it is instantiated with
the length of the subject, which suffices because every step consumes at
least one character. -/
def replaceAllAux (pat rep : List Char) : Nat → List Char → List Char
  | 0, l => l
  | _ + 1, [] => []
  | fuel + 1, c :: rest =>
    if pat ≠ [] && pat.isPrefixOf (c :: rest) then
      rep ++ replaceAllAux pat rep fuel ((c :: rest).drop pat.length)
    else
      c :: replaceAllAux pat rep fuel rest

/-- Global plain-text replacement, as `.replace(/pat/g, rep)` for a literal
pattern. -/
def replaceAll (s pat rep : String) : String :=
  ⟨replaceAllAux pat.data rep.data s.data.length s.data⟩

/-- Splits a character stream at the next `**` marker: returns the text
before the marker and the text after it (used for the lazy group of
`/\*\*(.*?)\*\*/g`). -/
def findCloseAux : List Char → Option (List Char × List Char)
  | [] => none
  | '*' :: '*' :: rest => some ([], rest)
  | c :: rest => (findCloseAux rest).map (fun p => (c :: p.1, p.2))

/-- `.replace(/\*\*(.*?)\*\*/g, openT + "$1" + closeT)`: every lazily
matched `**…**` pair is wrapped in the given open/close tags; a `**` with
no closing marker is left in place.  By the time this runs the subject no
longer contains newlines (they were already replaced by `<br>`), so the
"dot does not match newline" restriction of the source regex is vacuous.
`fuel` is instantiated with the subject length. -/
def strongWrapAux (openT closeT : List Char) : Nat → List Char → List Char
  | 0, l => l
  | _ + 1, [] => []
  | fuel + 1, '*' :: '*' :: rest =>
    match findCloseAux rest with
    | some (mid, rest2) =>
      openT ++ mid ++ closeT ++ strongWrapAux openT closeT fuel rest2
    | none => '*' :: '*' :: strongWrapAux openT closeT fuel rest
  | fuel + 1, c :: rest => c :: strongWrapAux openT closeT fuel rest

def strongWrap (openT closeT : String) (s : String) : String :=
  ⟨strongWrapAux openT.data closeT.data s.data.length s.data⟩

/-- Bool substring test: `infixAux n h` holds when `n` occurs contiguously
in `h`. -/
def infixAux (n : List Char) : List Char → Bool
  | [] => n.isEmpty
  | c :: t => n.isPrefixOf (c :: t) || infixAux n t

/-- `hay` contains `needle` as a contiguous substring. -/
def containsStr (needle hay : String) : Bool :=
  infixAux needle.data hay.data

/-- The network outcome of one `fetch` of a chat turn, as observed by the
widget code that performs it.  A call that never settles is outside this
model (no timeout is installed; such a call never reaches its
continuation). -/
inductive Outcome where
  /-- `response.ok` and the parsed JSON body carries a string `response`
  field (plus the optional `rag_used` flag). -/
  | success (resp : String) (ragUsed : Bool)
  /-- `response.ok` but the body is unusable: `response.json()` rejects or
  the `response` field is missing. -/
  | malformed
  /-- `!response.ok`; `detail` is the `detail` field of the error body when
  that body parses, otherwise `none`. -/
  | badStatus (detail : Option String)
  /-- the `fetch` promise rejected (network-level failure). -/
  | networkError
deriving Repr, DecidableEq

/-- One rendered item of a widget's messages area, abstracted from its
markup: the conversation Messages and the transient typing placeholder.
The static welcome block created at mount time is part of the mount
markup, not of this conversation list. -/
inductive Entry where
  | userMsg (content : String)
  | typing (tid : Nat)
  | assistantMsg (content : String)
  | errorMsg (content : String)
deriving Repr, DecidableEq

/-- `document.getElementById(typingId).remove()` on a messages area:
drops the typing element with identifier `tid` (and is a no-op when it is
absent, matching the guarded removals in the sources). -/
def removeTyping (tid : Nat) (l : List Entry) : List Entry :=
  l.filter (fun e => decide (e ≠ Entry.typing tid))

/-- Identifiers of all typing placeholders currently rendered, in order. -/
def typingIds (l : List Entry) : List Nat :=
  l.filterMap (fun e => match e with | Entry.typing t => some t | _ => none)

/-! ### The lexical failure of `widget.js` line 480

`src/frontend/public/widget.js` line 480 reads (22 leading spaces):

`.replace(/\*\*(.*?)\*\*/g, '<strong style="color: ${config.primaryColor || '#8B4513'};">$1</strong>')`

The replacement argument is a single-quoted string literal.  Scanned by
the ECMAScript lexical grammar, that literal ends at the quote before
`#8B4513`, and the next character `#` cannot begin any token there.  The
scanner below reproduces exactly this. -/

/-- The text of line 480 up to the replacement argument. -/
def line480Prefix : String :=
  "                      .replace(/\\*\\*(.*?)\\*\\*/g, "

/-- The replacement argument of line 480 (with the closing parenthesis),
written with `\x27` for the apostrophes and `\x7b`/`\x7d` for the braces
of the source text. -/
def line480ReplacementArg : String :=
  "\x27<strong style=\"color: $\x7bconfig.primaryColor || \x27#8B4513\x27\x7d;\">$1</strong>\x27)"

/-- The whole of line 480 of `widget.js`. -/
def line480Text : String :=
  line480Prefix ++ line480ReplacementArg

/-- Models the ECMAScript single-quoted StringLiteral on a single source
line: after the opening quote, characters are consumed up to the first
unescaped `\x27`, a backslash escaping the character after it; the result
is the remainder after the closing quote, `none` for an unterminated
literal.  (Line terminators, which also end a literal, do not occur in
the scanned text.) -/
def sqStringRest : List Char → Option (List Char)
  | [] => none
  | '\\' :: _ :: rest => sqStringRest rest
  | '\'' :: rest => some rest
  | _ :: rest => sqStringRest rest

/-- Scans one single-quoted string token at the head of the input and
returns the remainder after it. -/
def afterStringToken : List Char → Option (List Char)
  | '\'' :: rest => sqStringRest rest
  | _ => none

/-- Whether a JavaScript token can start at the head of the input.  Per
the ECMAScript lexical grammar, `#` begins only a PrivateIdentifier —
`#` immediately followed by an identifier start (letter, `_` or `$`) —
and even that only inside a class body.  Every other leading character is
conservatively allowed here, which can only under-report errors, so a
`false` verdict is sound. -/
def jsTokenStartOk : List Char → Bool
  | '#' :: c :: _ => c.isAlpha || c == '_' || c == '$'
  | '#' :: [] => false
  | _ => true

/-- Whether line 480 of `widget.js` tokenizes: scan the replacement
argument's string literal, then ask whether a token can start at what
follows.  (It cannot: the literal closes before `#8B4513`.) -/
def line480Tokenizes : Bool :=
  match afterStringToken line480ReplacementArg.data with
  | some rest => jsTokenStartOk rest
  | none => false

namespace Widget

/-- The configuration object the documentation of
`src/frontend/public/widget.js` asks the host to pass to
`AIChatbot.init` (§6 of the spec). -/
structure Config where
  apiUrl : String
  primaryColor : Option String := none
  companyName : Option String := none
  welcomeMessage : Option String := none
deriving Repr, DecidableEq

/-- `config.primaryColor || '#8B4513'`, as interpolated by the template
literals of `widget.js`. -/
def primary (cfg : Config) : String :=
  cfg.primaryColor.getD "#8B4513"

/-- The response transformation written at lines 478–481 of `widget.js`:
`\n` to `<br>`, `**…**` pairs to a `<strong>` wrapper, bullet indent.
Line 480 of that chain is a lexical error — the single-quoted replacement
literal closes before `#8B4513`, leaving a bare `#8B4513` token (see
`line480Tokenizes` and `line480_lexical_error`) — so the enclosing script
never parses and this transformation never runs.  The definition records
the transformation the replacement evidently intends (the accent color
interpolated into the `<strong>` tag) and is used only for source-text
analysis of the templates, never as artifact behavior. -/
def formatResponse (cfg : Config) (r : String) : String :=
  replaceAll
    (strongWrap ("<strong style=\"color: " ++ primary cfg ++ ";\">") "</strong>"
      (replaceAll r "\n" "<br>"))
    "• " "&nbsp;&nbsp;• "

/-- The body of one POST to `/api/chat/public` as lines 455–466 of
`widget.js` would build it; no such request is ever issued, since the
script never parses.  Used as the element type of the request log of the
page model. -/
structure ChatRequest where
  url : String
  message : String
  conversation_id : String
  use_rag : Bool
  max_documents : Nat
deriving Repr, DecidableEq

/-- Nodes a host document can hold that matter here: the two reserved
widget element identifiers and arbitrary host-owned nodes. -/
inductive NodeId where
  | chatButton
  | chatWindow
  | hostNode (k : Nat)
deriving Repr, DecidableEq

/-- Literal chunk of the user-message template (lines 350–383 of
`widget.js`) up to the `primaryColor` interpolation.  Source text only:
the script never parses, so this markup is never rendered. -/
def userMsgChunkA : String := "
                  <div style=\"
                    text-align: right;
                    margin-bottom: 16px;
                    animation: messageSlideIn 0.3s ease-out;
                  \">
                    <div style=\"
                      background: linear-gradient(135deg, "

/-- Literal chunk between the `primaryColor` interpolation and the
`message` interpolation of the user-message template. -/
def userMsgChunkB : String := ", #CD853F);
                      color: white;
                      padding: 12px 18px;
                      border-radius: 20px 20px 5px 20px;
                      display: inline-block;
                      max-width: 75%;
                      font-size: 14px;
                      line-height: 1.4;
                      box-shadow: 0 2px 8px rgba(139, 69, 19, 0.2);
                      position: relative;
                      word-wrap: break-word;
                    \">
                      "

/-- Literal chunk after the `message` interpolation of the user-message
template. -/
def userMsgChunkC : String := "
                      <!-- Indicador de envío -->
                      <div style=\"
                        position: absolute;
                        bottom: -8px;
                        right: 8px;
                        width: 0;
                        height: 0;
                        border-left: 8px solid transparent;
                        border-right: 8px solid transparent;
                        border-top: 8px solid #CD853F;
                      \"></div>
                    </div>
                  </div>
                "

/-- The markup the user-message template of `widget.js` (lines 350–383)
would produce: the submitted text is interpolated into the template
directly, with no escaping.  A property of the source text; nothing is
ever rendered from it, since the script never parses. -/
def userMessageMarkup (cfg : Config) (message : String) : String :=
  userMsgChunkA ++ primary cfg ++ userMsgChunkB ++ message ++ userMsgChunkC

/-- Literal chunk of the assistant-message template (lines 483–533 of
`widget.js`) up to the `primaryColor` interpolation.  Source text only:
never rendered. -/
def assistChunkA : String := "
                      <div style=\"
                        margin-bottom: 16px;
                        animation: messageSlideIn 0.4s ease-out;
                      \">
                        <div style=\"display: flex; align-items: flex-start; gap: 12px;\">
                          <!-- Avatar del bot -->
                          <div style=\"
                            width: 32px;
                            height: 32px;
                            background: linear-gradient(135deg, "

/-- Literal chunk between the `primaryColor` interpolation and the
`formattedResponse` interpolation of the assistant-message template. -/
def assistChunkB : String := ", #CD853F);
                            border-radius: 50%;
                            display: flex;
                            align-items: center;
                            justify-content: center;
                            font-size: 16px;
                            flex-shrink: 0;
                            box-shadow: 0 2px 8px rgba(139, 69, 19, 0.3);
                          \">🎨</div>

                          <!-- Mensaje del bot -->
                          <div style=\"
                            background: linear-gradient(135deg, #f8f9fa, #e9ecef);
                            padding: 16px 20px;
                            border-radius: 20px 20px 20px 5px;
                            max-width: 85%;
                            font-size: 14px;
                            color: #2c3e50;
                            line-height: 1.5;
                            box-shadow: 0 2px 8px rgba(0,0,0,0.08);
                            border: 1px solid rgba(0,0,0,0.05);
                            position: relative;
                            word-wrap: break-word;
                          \">
                            "

/-- Literal chunk after the `formattedResponse` interpolation of the
assistant-message template. -/
def assistChunkC : String := "

                            <!-- Indicador de respuesta automática -->
                            <div style=\"
                              position: absolute;
                              bottom: -8px;
                              left: 8px;
                              width: 0;
                              height: 0;
                              border-left: 8px solid transparent;
                              border-right: 8px solid transparent;
                              border-top: 8px solid #e9ecef;
                            \"></div>
                          </div>
                        </div>
                      </div>
                    "

/-- The markup the assistant-message template of `widget.js`
(lines 483–533) would produce: the markup-transformed backend response is
interpolated into the template directly, with no escaping.  A property of
the source text; nothing is ever rendered from it. -/
def assistantMessageMarkup (cfg : Config) (resp : String) : String :=
  assistChunkA ++ primary cfg ++ assistChunkB ++ formatResponse cfg resp ++ assistChunkC

end Widget

/-- The host browser parsing markup assigned via `innerHTML`: characters
between `<` and `>` form tags (or comments without an inner `>`), the rest
is text content.  This models the DOM text extraction for markup that uses
no character entities and no `>` inside attribute values — which holds for
the widget templates. -/
def textContentAux : Bool → List Char → List Char
  | _, [] => []
  | true, c :: cs => if c == '>' then textContentAux false cs else textContentAux true cs
  | false, c :: cs => if c == '<' then textContentAux true cs else c :: textContentAux false cs

def textContent (s : String) : String :=
  ⟨textContentAux false s.data⟩

/-- The text a reader would see in a rendered bubble: tag-free content
with the surrounding template whitespace trimmed. -/
def visibleText (s : String) : String :=
  jsTrim (textContent s)

/-- The error message a classic script with a lexical error surfaces to
the host page. -/
def syntaxErrorText : String :=
  "SyntaxError: Invalid or unexpected token"

/-- The error the documented integration call `AIChatbot.init(\x7b…\x7d)`
raises in the host script when `window.AIChatbot` was never defined. -/
def typeErrorInitText : String :=
  "TypeError: Cannot read properties of undefined (reading \x27init\x27)"

/-- The observable state of a host page around the widget: errors
surfaced to the page, widget nodes present in the document, rendered
conversation entries, chat requests issued, and conversation identifiers
ever created. -/
structure Page where
  uncaughtErrors : List String
  nodes : List Widget.NodeId
  entries : List Entry
  requests : List Widget.ChatRequest
  conversationIds : List String
deriving Repr, DecidableEq

/-- A host page before any widget script is loaded. -/
def host0 : Page :=
  { uncaughtErrors := [], nodes := [], entries := [], requests := [],
    conversationIds := [] }

/-- Loading `src/frontend/public/widget.js` as a classic script.  The
file does not tokenize (`line480Tokenizes = false`, theorem
`line480_lexical_error`), and by the JavaScript script semantics a classic
script with a lexical error is rejected as a unit before evaluation: no
statement of it runs, `window.AIChatbot` stays undefined, no node, entry,
request or conversation identifier is created, and the SyntaxError
surfaces as an uncaught error of the host page. -/
def loadWidgetJs (p : Page) : Page :=
  { p with uncaughtErrors := p.uncaughtErrors ++ [syntaxErrorText] }

/-- What can happen on the host page after the failed load.  The rejected
script installed no handlers and scheduled no timers, so pointer and
keyboard activity (`domEvent`, carrying e.g. the text of an attempted
submission) and timer ticks reach only host-owned code; the documented
integration call `AIChatbot.init(…)` reads `init` off the undefined
`window.AIChatbot` and throws a TypeError inside the host's own script. -/
inductive HostEvent where
  | callInit
  | domEvent (detail : String)
  | timerFires
deriving Repr, DecidableEq

def hostEvent (p : Page) : HostEvent → Page
  | HostEvent.callInit =>
    { p with uncaughtErrors := p.uncaughtErrors ++ [typeErrorInitText] }
  | HostEvent.domEvent _ => p
  | HostEvent.timerFires => p

def runEvents (p : Page) (evs : List HostEvent) : Page :=
  evs.foldl hostEvent p

/-- Scenario configuration `{ apiUrl: "https://x.test" }`. -/
def cfgEx : Widget.Config := { apiUrl := "https://x.test" }

namespace HC

/-- The widget variant appended to `src/frontend/src/stores/authStore.ts`
(this script parses and runs).  Line 425: its `<strong>` replacement
carries no style. -/
def hcFormatResponse (r : String) : String :=
  replaceAll (strongWrap "<strong>" "</strong>" (replaceAll r "\n" "<br>"))
    "• " "&nbsp;&nbsp;• "

/-- Terminal Message of one completed send of the authStore variant
(lines 407–467): the bad-status bubble (line 453) and the connection-error
bubble (line 463) are fixed texts; neither interpolates `config.apiUrl`. -/
def terminalContent : Outcome → Entry
  | Outcome.success r _ => Entry.assistantMsg (hcFormatResponse r)
  | Outcome.malformed => Entry.errorMsg "❌ Error de conexión"
  | Outcome.badStatus _ => Entry.errorMsg "❌ Error al procesar el mensaje"
  | Outcome.networkError => Entry.errorMsg "❌ Error de conexión"

/-- `sendMessage` of the authStore variant (lines 355–470): guard on
trimmed input, append user Message, append typing placeholder, fetch,
remove the placeholder, append the terminal Message. -/
def sendMessage (input : String) (o : Outcome) (tid : Nat) (l : List Entry) :
    List Entry :=
  if jsTrim input = "" then l
  else
    removeTyping tid (l ++ [Entry.userMsg (jsTrim input), Entry.typing tid]) ++
      [terminalContent o]

/-- The inline style of the toggle control `#ai-chatbot-button`: the
critical geometry properties re-asserted by the resilience loop, plus the
remaining inline declarations (`rest`), which an interfering host script
may have set to anything. -/
structure Style where
  position : String
  bottom : String
  right : String
  zIndex : String
  transform : String
  transition : String
  rest : List (String × String)
deriving Repr, DecidableEq

/-- The 1000ms `setInterval` callback of `authStore.ts` lines 480–491: it
re-assigns the six critical properties of the toggle control one by one
and leaves other inline declarations alone. -/
def intervalTick (s : Style) : Style :=
  { s with
    position := "fixed"
    bottom := "20px"
    right := "20px"
    zIndex := "2147483647"
    transform := "none"
    transition := "none" }

/-- The non-geometry declarations written by `enforcePosition`
(lines 507–527) via `style.cssText`. -/
def enforceRest : List (String × String) :=
  [("width", "60px"), ("height", "60px"),
   ("background", "linear-gradient(135deg, #2196F3, #1976D2)"),
   ("border-radius", "50%"), ("display", "flex"),
   ("align-items", "center"), ("justify-content", "center"),
   ("color", "white"), ("font-size", "24px"), ("cursor", "pointer"),
   ("box-shadow", "0 6px 25px rgba(33, 150, 243, 0.4)"),
   ("border", "3px solid rgba(255,255,255,0.3)"),
   ("animation", "pulse 2s infinite")]

/-- The scroll/resize handler `enforcePosition` (lines 502–529): it
overwrites the whole inline style (`style.cssText = …`), so the result
does not depend on the previous style at all. -/
def enforcePosition (_s : Style) : Style :=
  { position := "fixed"
    bottom := "20px"
    right := "20px"
    zIndex := "2147483647"
    transform := "none"
    transition := "none"
    rest := enforceRest }

end HC

namespace Floors

/-- `src/unnamed/part_003`: the tenant-by-domain Shopify variant (this
script parses and runs). -/
structure Tenant where
  id : Nat
  name : String
deriving Repr, DecidableEq

/-- Outcome of one `GET /api/tenant/detect` lookup in `detectTenant`
(lines 25–42). -/
inductive TenantLookup where
  | success (t : Tenant)
  | noMatch
  | failure
deriving Repr, DecidableEq

def lookupFailed : TenantLookup → Bool
  | TenantLookup.success _ => false
  | TenantLookup.noMatch => true
  | TenantLookup.failure => true

/-- `detectTenant` sets `currentTenant` only on
`data.status === 'success' && data.tenant` (lines 30–37); a thrown fetch
error is caught and leaves it `null` (lines 38–41). -/
def detectTenant : TenantLookup → Option Tenant
  | TenantLookup.success t => some t
  | TenantLookup.noMatch => none
  | TenantLookup.failure => none

/-- The module-level state of the widget script (lines 19–22), plus
counters instrumenting the network calls it issues and the widget trees
it inserts, plus the lookups whose `await` has not yet resumed
(`pending`): `initWidget` is async, and its `isInitialized = true`
assignment happens only at line 355, after `await detectTenant()`. -/
structure WState where
  isInitialized : Bool
  currentTenant : Option Tenant
  mountCount : Nat
  lookups : Nat
  transports : Nat
  pending : List TenantLookup
deriving Repr, DecidableEq

/-- The state right after the script file is evaluated. -/
def freshState : WState :=
  { isInitialized := false, currentTenant := none, mountCount := 0,
    lookups := 0, transports := 0, pending := [] }

/-- The degraded-mode reply of `sendMessage` (lines 46–51). -/
def tenantErrorText : String :=
  "Error: No se pudo detectar la configuración del asistente para este dominio."

/-- Outcome of one `POST /api/chat/by-domain`, when it is issued. -/
inductive ChatOutcome where
  | success (resp : String)
  | errStatus (resp : Option String)
  | netError
deriving Repr, DecidableEq

def byDomainResponse : ChatOutcome → String
  | ChatOutcome.success r => r
  | ChatOutcome.errStatus r => r.getD "Error en el sistema. Intenta de nuevo."
  | ChatOutcome.netError => "Error de conexión. Por favor, intenta de nuevo."

/-- `sendMessage` (lines 45–86): with no resolved tenant it answers the
degraded-mode error without any network call; otherwise it issues exactly
one by-domain transport request. -/
def sendMessage (o : ChatOutcome) (s : WState) : WState × String :=
  if s.currentTenant = none then (s, tenantErrorText)
  else ({ s with transports := s.transports + 1 }, byDomainResponse o)

/-- The synchronous prefix of `initWidget` (lines 334–341): the
`isInitialized` guard — still unset at this point — and the start of
`detectTenant()`, which issues the lookup request before the function
suspends at its `await`. -/
def initStart (o : TenantLookup) (s : WState) : WState :=
  if s.isInitialized then s
  else { s with lookups := s.lookups + 1, pending := s.pending ++ [o] }

/-- The continuation of `initWidget` after its `await detectTenant()`
resumes (lines 341–356): record the lookup's result in `currentTenant`,
insert a widget tree (`createChatWidget` appends markup with no removal
of an earlier copy), and only now set `isInitialized`. -/
def initFinish (s : WState) : WState :=
  match s.pending with
  | [] => s
  | o :: rest =>
    { isInitialized := true, currentTenant := detectTenant o,
      mountCount := s.mountCount + 1, lookups := s.lookups,
      transports := s.transports, pending := rest }

/-- One `initWidget` call that runs to completion with no other init call
in flight: its pre-await half followed immediately by its continuation.
(When a second call overlaps the pending `await`, the two halves
interleave instead; see the overlapping-inits theorem.) -/
def initWidget (o : TenantLookup) (s : WState) : WState :=
  initFinish (initStart o s)

/-- One event of a page load in which init calls do not overlap: an
`initWidget` call run to completion (the auto-init, or the exposed
`window.FloorsInstallerChatbot.init`) or a user send. -/
inductive Op where
  | init (o : TenantLookup)
  | send (c : ChatOutcome)
deriving Repr, DecidableEq

def applyOp (s : WState) : Op → WState
  | Op.init o => initWidget o s
  | Op.send c => (sendMessage c s).1

def runOps (s : WState) (ops : List Op) : WState :=
  ops.foldl applyOp s

/-- Every lookup outcome occurring in the event list is a failed one. -/
def allLookupsFail (ops : List Op) : Bool :=
  ops.all (fun op => match op with | Op.init o => lookupFailed o | Op.send _ => true)

def hasInit (ops : List Op) : Bool :=
  ops.any (fun op => match op with | Op.init _ => true | Op.send _ => false)

end Floors

end ChatWidget

namespace ChatWidget

theorem removeTyping_append (tid : Nat) (a b : List Entry) :
    removeTyping tid (a ++ b) = removeTyping tid a ++ removeTyping tid b := by
  simp [removeTyping, List.filter_append]

theorem removeTyping_of_not_mem (tid : Nat) (l : List Entry)
    (h : Entry.typing tid ∉ l) : removeTyping tid l = l := by
  apply List.filter_eq_self.mpr
  intro a ha
  simp only [decide_eq_true_eq]
  intro hEq
  exact h (hEq ▸ ha)

theorem removeTyping_pair (tid : Nat) (m : String) :
    removeTyping tid [Entry.userMsg m, Entry.typing tid] = [Entry.userMsg m] := by
  simp [removeTyping, List.filter]

theorem hc_sendMessage_eq (input : String) (o : Outcome) (tid : Nat) (l : List Entry)
    (hne : jsTrim input ≠ "") (hfresh : Entry.typing tid ∉ l) :
    HC.sendMessage input o tid l =
      l ++ [Entry.userMsg (jsTrim input), HC.terminalContent o] := by
  unfold HC.sendMessage
  rw [if_neg hne, removeTyping_append, removeTyping_of_not_mem tid l hfresh,
    removeTyping_pair]
  simp

theorem line480_lexical_error :
    line480Tokenizes = false ∧
    afterStringToken line480ReplacementArg.data =
      some ("#8B4513\x27\x7d;\">$1</strong>\x27)".data) := by
  exact ⟨by decide, by decide⟩

theorem runEvents_inert (evs : List HostEvent) :
    ∀ p : Page, (runEvents p evs).nodes = p.nodes ∧
      (runEvents p evs).entries = p.entries ∧
      (runEvents p evs).requests = p.requests ∧
      (runEvents p evs).conversationIds = p.conversationIds := by
  induction evs with
  | nil => exact fun p => ⟨rfl, rfl, rfl, rfl⟩
  | cons e rest ih =>
    intro p
    have hstep : runEvents p (e :: rest) = runEvents (hostEvent p e) rest := rfl
    rw [hstep]
    have he : (hostEvent p e).nodes = p.nodes ∧ (hostEvent p e).entries = p.entries ∧
        (hostEvent p e).requests = p.requests ∧
        (hostEvent p e).conversationIds = p.conversationIds := by
      cases e <;> exact ⟨rfl, rfl, rfl, rfl⟩
    obtain ⟨h1, h2, h3, h4⟩ := he
    obtain ⟨g1, g2, g3, g4⟩ := ih (hostEvent p e)
    exact ⟨g1.trans h1, g2.trans h2, g3.trans h3, g4.trans h4⟩

/-- Claim C1 (code bug): the spec promises that every non-empty
submission appends exactly one user Message, one TypingPlaceholder cycle
and one terminal Message, but `widget.js` fails to tokenize at line 480,
so the script is rejected as a unit, no send routine or input field ever
exists, and no interaction on the page — in particular an attempted
submission of any text — ever adds a single conversation entry. -/
theorem widget_send_produces_nothing (evs : List HostEvent) (input : String) :
    line480Tokenizes = false ∧
    (runEvents (loadWidgetJs host0) (evs ++ [HostEvent.domEvent input])).entries = [] ∧
    (runEvents (loadWidgetJs host0) evs).entries = [] := by
  refine ⟨by decide, ?_, ?_⟩
  · have h := (runEvents_inert (evs ++ [HostEvent.domEvent input]) (loadWidgetJs host0)).2.1
    rw [h]; rfl
  · have h := (runEvents_inert evs (loadWidgetJs host0)).2.1
    rw [h]; rfl

/-- Claim C2: in every state the host page can reach after loading
`widget.js`, at most one TypingPlaceholder exists — in fact none ever
does: the script fails to tokenize at line 480 and is rejected as a unit,
so no send routine exists, no send is ever invoked or suspended at a
network call, and the message list never holds a placeholder. -/
theorem widget_typing_at_most_one (evs : List HostEvent) :
    line480Tokenizes = false ∧
    (typingIds (runEvents (loadWidgetJs host0) evs).entries).length = 0 ∧
    (typingIds (runEvents (loadWidgetJs host0) evs).entries).length ≤ 1 := by
  have h := (runEvents_inert evs (loadWidgetJs host0)).2.1
  refine ⟨by decide, ?_, ?_⟩ <;> rw [h] <;> decide

/-- Claim C3 (code bug): the spec promises that mount attempts are
idempotent with exactly one toggle control and one panel present
afterwards, but `widget.js` fails to tokenize at line 480: `createChatbot`
never exists, the documented `AIChatbot.init` call throws instead of
mounting, and after any number of init attempts and further page activity
the document holds zero toggle controls and zero panels. -/
theorem widget_mount_attempts_produce_no_nodes (evs : List HostEvent) :
    line480Tokenizes = false ∧
    ((runEvents (loadWidgetJs host0)
        (HostEvent.callInit :: HostEvent.callInit :: evs)).nodes).count
      Widget.NodeId.chatButton = 0 ∧
    ((runEvents (loadWidgetJs host0)
        (HostEvent.callInit :: HostEvent.callInit :: evs)).nodes).count
      Widget.NodeId.chatWindow = 0 := by
  have h := (runEvents_inert (HostEvent.callInit :: HostEvent.callInit :: evs)
    (loadWidgetJs host0)).1
  refine ⟨by decide, ?_, ?_⟩ <;> rw [h] <;> decide

/-- Claim C4 (code bug): the spec's propagation policy — nothing from the
runtime may throw into the host page — is violated by the artifact
itself: loading `widget.js` surfaces an uncaught SyntaxError (the script
does not tokenize at line 480), and the documented `AIChatbot.init`
integration call then throws a TypeError inside the host's own script,
because `window.AIChatbot` was never defined. -/
theorem widget_load_throws_into_host :
    line480Tokenizes = false ∧
    (loadWidgetJs host0).uncaughtErrors = [syntaxErrorText] ∧
    (runEvents (loadWidgetJs host0) [HostEvent.callInit]).uncaughtErrors =
      [syntaxErrorText, typeErrorInitText] := by
  exact ⟨by decide, rfl, rfl⟩

/-- Claim C6 fails as stated on the authStore.ts widget variant: on a
rejected network call that variant appends the fixed system-error text
`"❌ Error de conexión"`, which does not reference the configured backend
address — indeed no address at all. -/
theorem hc_network_error_lacks_apiUrl :
    HC.sendMessage "hola" Outcome.networkError 1 [] =
      [Entry.userMsg "hola", Entry.errorMsg "❌ Error de conexión"] ∧
    containsStr cfgEx.apiUrl "❌ Error de conexión" = false ∧
    containsStr "http" "❌ Error de conexión" = false := by
  exact ⟨by decide, by decide, by decide⟩

/-- Claim C6 (amended): on a bad status or a network-level failure the
authStore.ts variant — the only variant of the claim's sources that
executes — removes the TypingPlaceholder, appends no assistant Message
and appends exactly one system-error Message; its texts are fixed and do
not include the configured backend address.  The `widget.js` error paths
the claim also names, including the `apiUrl`-bearing network-failure
text, never run: that script does not tokenize (line 480). -/
theorem hc_send_error_paths (input : String) (tid : Nat) (l : List Entry)
    (d : Option String) (hne : jsTrim input ≠ "") (hfresh : Entry.typing tid ∉ l) :
    HC.sendMessage input (Outcome.badStatus d) tid l =
      l ++ [Entry.userMsg (jsTrim input),
        Entry.errorMsg "❌ Error al procesar el mensaje"] ∧
    HC.sendMessage input Outcome.networkError tid l =
      l ++ [Entry.userMsg (jsTrim input), Entry.errorMsg "❌ Error de conexión"] ∧
    containsStr cfgEx.apiUrl "❌ Error de conexión" = false ∧
    containsStr cfgEx.apiUrl "❌ Error al procesar el mensaje" = false ∧
    line480Tokenizes = false := by
  refine ⟨hc_sendMessage_eq input _ tid l hne hfresh,
    hc_sendMessage_eq input _ tid l hne hfresh, by decide, by decide, by decide⟩

/-- Witness for the amended C6 at Scenarios B and C of the spec. -/
theorem hc_send_error_paths_witness :
    jsTrim "hola" ≠ "" ∧ Entry.typing 3 ∉ ([] : List Entry) ∧
    (HC.sendMessage "hola" (Outcome.badStatus none) 3 [] =
        [] ++ [Entry.userMsg (jsTrim "hola"),
          Entry.errorMsg "❌ Error al procesar el mensaje"] ∧
      HC.sendMessage "hola" Outcome.networkError 3 [] =
        [] ++ [Entry.userMsg (jsTrim "hola"), Entry.errorMsg "❌ Error de conexión"] ∧
      containsStr cfgEx.apiUrl "❌ Error de conexión" = false ∧
      containsStr cfgEx.apiUrl "❌ Error al procesar el mensaje" = false ∧
      line480Tokenizes = false) :=
  ⟨by decide, by decide,
    hc_send_error_paths "hola" 3 [] none (by decide) (by decide)⟩

/-- Claim C5: one tick of the 1000ms resilience interval, and likewise one
scroll/resize `enforcePosition` call, restores the toggle control's
critical geometry from any inline style the host may have left: position
`fixed`, offsets `bottom: 20px` and `right: 20px`, and stacking order
`z-index: 2147483647`. -/
theorem hc_resilience_restores_geometry (s : HC.Style) :
    (HC.intervalTick s).position = "fixed" ∧ (HC.intervalTick s).bottom = "20px" ∧
    (HC.intervalTick s).right = "20px" ∧ (HC.intervalTick s).zIndex = "2147483647" ∧
    (HC.enforcePosition s).position = "fixed" ∧ (HC.enforcePosition s).bottom = "20px" ∧
    (HC.enforcePosition s).right = "20px" ∧ (HC.enforcePosition s).zIndex = "2147483647" :=
  ⟨rfl, rfl, rfl, rfl, rfl, rfl, rfl, rfl⟩

/-- Claim C7 fails as stated: `initWidget` sets its `isInitialized` guard
only after awaiting the tenant lookup, so a second init call — the
exposed `FloorsInstallerChatbot.init` invoked while the auto-init is
still awaiting its lookup — passes the guard again.  The concrete run
(start, start, finish, finish) issues two tenant lookups in one page load
and inserts two widget trees, refuting "the tenant lookup is performed at
most once per page load". -/
theorem floors_overlapping_inits_two_lookups :
    (Floors.initFinish (Floors.initFinish (Floors.initStart Floors.TenantLookup.noMatch
        (Floors.initStart Floors.TenantLookup.noMatch Floors.freshState)))).lookups = 2 ∧
    (Floors.initFinish (Floors.initFinish (Floors.initStart Floors.TenantLookup.noMatch
        (Floors.initStart Floors.TenantLookup.noMatch Floors.freshState)))).mountCount = 2 ∧
    ¬((Floors.initFinish (Floors.initFinish (Floors.initStart Floors.TenantLookup.noMatch
        (Floors.initStart Floors.TenantLookup.noMatch Floors.freshState)))).lookups ≤ 1) := by
  exact ⟨by decide, by decide, by decide⟩

theorem floors_runOps_inv (ops : List Floors.Op) :
    ∀ s : Floors.WState, Floors.allLookupsFail ops = true →
      s.currentTenant = none → s.transports = 0 → s.pending = [] →
      (s.isInitialized = false ∧ s.lookups = 0 ∧ s.mountCount = 0 ∨
        s.isInitialized = true ∧ s.lookups = 1 ∧ s.mountCount = 1) →
      (Floors.runOps s ops).currentTenant = none ∧
      (Floors.runOps s ops).transports = 0 ∧
      (Floors.runOps s ops).pending = [] ∧
      (Floors.runOps s ops).isInitialized = (s.isInitialized || Floors.hasInit ops) ∧
      ((Floors.runOps s ops).isInitialized = false ∧
          (Floors.runOps s ops).lookups = 0 ∧ (Floors.runOps s ops).mountCount = 0 ∨
        (Floors.runOps s ops).isInitialized = true ∧
          (Floors.runOps s ops).lookups = 1 ∧ (Floors.runOps s ops).mountCount = 1) := by
  induction ops with
  | nil =>
    intro s _ h1 h2 h3 h4
    exact ⟨h1, h2, h3, by simp [Floors.runOps, Floors.hasInit], h4⟩
  | cons op rest ih =>
    intro s hfail h1 h2 h3 h4
    have hstep : Floors.runOps s (op :: rest) =
        Floors.runOps (Floors.applyOp s op) rest := rfl
    rw [hstep]
    cases op with
    | send c =>
      have hrest : Floors.allLookupsFail rest = true := by
        simp only [Floors.allLookupsFail, List.all_cons, Bool.and_eq_true] at hfail
        exact hfail.2
      have ha : Floors.applyOp s (Floors.Op.send c) = s := by
        simp [Floors.applyOp, Floors.sendMessage, h1]
      rw [ha]
      obtain ⟨a1, a2, a3, a4, a5⟩ := ih s hrest h1 h2 h3 h4
      refine ⟨a1, a2, a3, ?_, a5⟩
      rw [a4]
      simp [Floors.hasInit, List.any_cons]
    | init o =>
      have hparts : Floors.lookupFailed o = true ∧
          Floors.allLookupsFail rest = true := by
        simp only [Floors.allLookupsFail, List.all_cons, Bool.and_eq_true] at hfail
        exact hfail
      obtain ⟨hop, hrest⟩ := hparts
      have hdet : Floors.detectTenant o = none := by
        cases o with
        | success t => simp [Floors.lookupFailed] at hop
        | noMatch => rfl
        | failure => rfl
      by_cases hinit : s.isInitialized = true
      · have ha : Floors.applyOp s (Floors.Op.init o) = s := by
          simp [Floors.applyOp, Floors.initWidget, Floors.initStart, hinit,
            Floors.initFinish, h3]
        rw [ha]
        obtain ⟨a1, a2, a3, a4, a5⟩ := ih s hrest h1 h2 h3 h4
        refine ⟨a1, a2, a3, ?_, a5⟩
        rw [a4, hinit]
        simp
      · have hzero : s.lookups = 0 ∧ s.mountCount = 0 := by
          rcases h4 with ⟨_, hl, hm⟩ | ⟨h, _, _⟩
          · exact ⟨hl, hm⟩
          · exact absurd h hinit
        have ha : Floors.applyOp s (Floors.Op.init o) =
            { isInitialized := true, currentTenant := Floors.detectTenant o,
              mountCount := s.mountCount + 1, lookups := s.lookups + 1,
              transports := s.transports, pending := [] } := by
          simp [Floors.applyOp, Floors.initWidget, Floors.initStart, hinit,
            Floors.initFinish, h3]
        rw [ha]
        obtain ⟨a1, a2, a3, a4, a5⟩ := ih
          { isInitialized := true, currentTenant := Floors.detectTenant o,
            mountCount := s.mountCount + 1, lookups := s.lookups + 1,
            transports := s.transports, pending := [] }
          hrest hdet h2 rfl
          (Or.inr ⟨rfl, by show s.lookups + 1 = 1; omega,
            by show s.mountCount + 1 = 1; omega⟩)
        refine ⟨a1, a2, a3, ?_, a5⟩
        rw [a4]
        have hfalse : s.isInitialized = false := by
          cases hb : s.isInitialized
          · rfl
          · exact absurd hb hinit
        rw [hfalse]
        simp [Floors.hasInit, List.any_cons]

/-- Claim C7 (amended): for the tenant-by-domain variant, when every
tenant lookup of the page load fails or finds no match the widget still
mounts (exactly one widget tree); every subsequent send answers the
degraded-mode error text without issuing any by-domain transport; the
lookup never runs as part of a send; and it runs at most once per page
load provided no second init call is issued while the first is still
awaiting its lookup — overlapping init calls do issue a second lookup
and a duplicate mount (see the counterexample theorem). -/
theorem floors_degraded_sequential (ops : List Floors.Op) (c : Floors.ChatOutcome)
    (hfail : Floors.allLookupsFail ops = true) :
    (Floors.runOps Floors.freshState ops).lookups ≤ 1 ∧
    (Floors.runOps Floors.freshState ops).currentTenant = none ∧
    (Floors.runOps Floors.freshState ops).transports = 0 ∧
    (Floors.sendMessage c (Floors.runOps Floors.freshState ops)).2 =
      Floors.tenantErrorText ∧
    (Floors.sendMessage c (Floors.runOps Floors.freshState ops)).1.transports = 0 ∧
    (Floors.hasInit ops = true →
      (Floors.runOps Floors.freshState ops).mountCount = 1) := by
  obtain ⟨h1, h2, h3, h4, h5⟩ :=
    floors_runOps_inv ops Floors.freshState hfail rfl rfl rfl (Or.inl ⟨rfl, rfl, rfl⟩)
  refine ⟨?_, h1, h2, ?_, ?_, ?_⟩
  · rcases h5 with ⟨_, hl, _⟩ | ⟨_, hl, _⟩ <;> (rw [hl]; try omega)
  · simp [Floors.sendMessage, h1]
  · simp [Floors.sendMessage, h1, h2]
  · intro hinit
    rcases h5 with ⟨hfalse, _, _⟩ | ⟨_, _, hm⟩
    · rw [h4, hinit] at hfalse
      simp [Floors.freshState] at hfalse
    · exact hm

/-- Witness for the amended C7 at Scenario D of the spec: the lookup
answers `{ status: "error" }`, then a message is sent. -/
theorem floors_degraded_sequential_witness :
    Floors.allLookupsFail [Floors.Op.init Floors.TenantLookup.noMatch,
        Floors.Op.send (Floors.ChatOutcome.success "hola")] = true ∧
    ((Floors.runOps Floors.freshState [Floors.Op.init Floors.TenantLookup.noMatch,
        Floors.Op.send (Floors.ChatOutcome.success "hola")]).lookups ≤ 1 ∧
      (Floors.runOps Floors.freshState [Floors.Op.init Floors.TenantLookup.noMatch,
        Floors.Op.send (Floors.ChatOutcome.success "hola")]).currentTenant = none ∧
      (Floors.runOps Floors.freshState [Floors.Op.init Floors.TenantLookup.noMatch,
        Floors.Op.send (Floors.ChatOutcome.success "hola")]).transports = 0 ∧
      (Floors.sendMessage (Floors.ChatOutcome.success "adiós")
          (Floors.runOps Floors.freshState [Floors.Op.init Floors.TenantLookup.noMatch,
            Floors.Op.send (Floors.ChatOutcome.success "hola")])).2 =
        Floors.tenantErrorText ∧
      (Floors.sendMessage (Floors.ChatOutcome.success "adiós")
          (Floors.runOps Floors.freshState [Floors.Op.init Floors.TenantLookup.noMatch,
            Floors.Op.send (Floors.ChatOutcome.success "hola")])).1.transports = 0 ∧
      (Floors.hasInit [Floors.Op.init Floors.TenantLookup.noMatch,
            Floors.Op.send (Floors.ChatOutcome.success "hola")] = true →
        (Floors.runOps Floors.freshState [Floors.Op.init Floors.TenantLookup.noMatch,
          Floors.Op.send (Floors.ChatOutcome.success "hola")]).mountCount = 1)) :=
  ⟨by decide,
    floors_degraded_sequential
      [Floors.Op.init Floors.TenantLookup.noMatch,
        Floors.Op.send (Floors.ChatOutcome.success "hola")]
      (Floors.ChatOutcome.success "adiós") (by decide)⟩

/-- Claim C8 (code bug): the spec promises exactly one POST to
`<apiUrl>/api/chat/public` per accepted send, but `widget.js` fails to
tokenize at line 480; the script is rejected as a unit, so no fetch is
ever issued: after loading, any sequence of page activity — including an
attempted submission — leaves the request log empty. -/
theorem widget_send_issues_no_request (evs : List HostEvent) (input : String) :
    line480Tokenizes = false ∧
    (runEvents (loadWidgetJs host0) (evs ++ [HostEvent.domEvent input])).requests = [] ∧
    (runEvents (loadWidgetJs host0) evs).requests = [] := by
  refine ⟨by decide, ?_, ?_⟩
  · have h := (runEvents_inert (evs ++ [HostEvent.domEvent input])
      (loadWidgetJs host0)).2.2.1
    rw [h]; rfl
  · have h := (runEvents_inert evs (loadWidgetJs host0)).2.2.1
    rw [h]; rfl

/-- Claim C9 fails as stated: `widget.js` does not tokenize at line 480,
so its rendering code never runs — after loading, no page activity (in
particular an attempted submission of the markup-bearing input
`"<b>hola</b>"`) ever renders anything, and no input has any rendered
text content at all, let alone one differing from the submitted string. -/
theorem widget_markup_never_rendered :
    line480Tokenizes = false ∧
    (runEvents (loadWidgetJs host0) [HostEvent.domEvent "<b>hola</b>"]).entries = [] ∧
    (∀ evs : List HostEvent, (runEvents (loadWidgetJs host0) evs).entries = []) := by
  refine ⟨by decide, rfl, ?_⟩
  intro evs
  have h := (runEvents_inert evs (loadWidgetJs host0)).2.1
  rw [h]; rfl

set_option maxRecDepth 40000 in
/-- Claim C9 (amended): as source text, the `widget.js` templates splice
the user's submitted text and the markup-transformed backend response
into the message markup verbatim, with no escaping — so had the script
parsed, markup in the input would be interpreted (the bubble produced for
`"<b>hola</b>"` has text content `"hola"`, differing from the submitted
string).  The script never parses (line 480), so none of this markup is
ever rendered. -/
theorem widget_markup_splices_verbatim :
    Widget.userMessageMarkup cfgEx "<b>hola</b>" =
      Widget.userMsgChunkA ++ "#8B4513" ++ Widget.userMsgChunkB ++ "<b>hola</b>" ++
        Widget.userMsgChunkC ∧
    (∀ (cfg : Widget.Config) (r : String),
      Widget.assistantMessageMarkup cfg r =
        Widget.assistChunkA ++ Widget.primary cfg ++ Widget.assistChunkB ++
          Widget.formatResponse cfg r ++ Widget.assistChunkC) ∧
    containsStr "<b>hola</b>" (Widget.userMessageMarkup cfgEx "<b>hola</b>") = true ∧
    visibleText (Widget.userMessageMarkup cfgEx "<b>hola</b>") = "hola" ∧
    ("hola" : String) ≠ "<b>hola</b>" ∧
    line480Tokenizes = false := by
  refine ⟨rfl, fun cfg r => rfl, ?_, ?_, by decide, by decide⟩
  · decide
  · decide

/-- Claim C10: no conversation state survives a re-mount — vacuously so
on the artifact: `widget.js` does not tokenize at line 480, so the mount
routine never exists and is never invoked; after loading, every reachable
page state holds no conversation identifier, no rendered Message and no
widget node, so there is no mount invocation to examine and no previous
conversation state that could survive one. -/
theorem widget_no_conversation_state_survives (evs : List HostEvent) :
    line480Tokenizes = false ∧
    (runEvents (loadWidgetJs host0) evs).conversationIds = [] ∧
    (runEvents (loadWidgetJs host0) evs).entries = [] ∧
    ((runEvents (loadWidgetJs host0) evs).nodes).count Widget.NodeId.chatButton = 0 := by
  obtain ⟨hn, he, _, hc⟩ := runEvents_inert evs (loadWidgetJs host0)
  refine ⟨by decide, ?_, ?_, ?_⟩
  · rw [hc]; rfl
  · rw [he]; rfl
  · rw [hn]
    decide

end ChatWidget
